import Mathlib

/-!
Verification of the Market Analysis and Anomaly Detection Engine of the
realestate_monitoring repository.

The development shallowly embeds the two analysis entry points:

* analysis/analyze.py   - statistical pipeline (analyze_and_store, flag_row);
* analysis/analyze_ml.py - ML pipeline (load_recent_listings, prepare_features,
  train_model, predict_price, calculate_deviation, analyze_and_store).

Machine floats are modelled by rationals.  The only float operation with no
exact rational counterpart is the square root used by the sample standard
deviation; it is threaded through as an oracle parameter sqrtQ, so every
theorem quantifies over the actual numeric behaviour of that routine.
Similarly, the scikit-learn fitting routine (StandardScaler + RandomForest)
is an oracle parameter fit; it is fallible, since fitting can raise.
Database tables are lists of rows, written with the SQLite INSERT OR
REPLACE statement both pipelines use.  Its semantics depend on the declared
schema: listing_analysis has listing_id as its primary key (seed_demo.py and
test_e2e.py), so the conflicting row is deleted and the fresh row inserted,
while group_stats is keyed only by a surrogate autoincrement id with no
unique constraint on (zip_code, property_type, stat_date), so no conflict
ever arises and the statement plainly appends a row.
-/

namespace RealEstate

/-- A row of the listings table.  Numeric columns are Option valued: the
source runs pd.to_numeric with coercion, so an unparseable value becomes
missing (NaN), never an error. -/
structure Listing where
  listing_id : String
  zip_code : String
  property_type : String
  price : Option ℚ
  sq_ft : Option ℚ
  beds : Option ℚ
  baths : Option ℚ
  year_built : Option ℚ
  scrape_timestamp : ℚ
  dq_status : String
deriving DecidableEq, Repr

/-- Pandas comparison "column > 0": false on a missing value (NaN). -/
def posQ : Option ℚ → Bool
  | some v => decide (0 < v)
  | none => false

/-- Derived column ppsq = price / sq_ft; missing whenever either operand is
missing (NaN propagation). -/
def ppsqOf (l : Listing) : Option ℚ :=
  match l.price, l.sq_ft with
  | some p, some s => some (p / s)
  | _, _ => none

/-- THRESHOLD_MULTIPLIER = 1.5 from analyze.py. -/
def THRESHOLD_MULTIPLIER : ℚ := 1.5

/-- DEVIATION_THRESHOLD = 15 from analyze_ml.py. -/
def DEVIATION_THRESHOLD : ℚ := 15

/-- MIN_TRAIN_SIZE = 500 from analyze_ml.py. -/
def MIN_TRAIN_SIZE : ℕ := 500

/-- flag_row from analyze.py: the statistical classifier.  Returns the pair
(is_anomaly, anomaly_type).  Any missing input short-circuits to
(False, None); otherwise the strict comparisons against mu +- k * sigma
decide the verdict. -/
def flag_row (ppsq mu sigma : Option ℚ) : Bool × Option String :=
  match ppsq, mu, sigma with
  | some x, some m, some s =>
    if x > m + THRESHOLD_MULTIPLIER * s then (true, some "over-priced")
    else if x < m - THRESHOLD_MULTIPLIER * s then (true, some "under-priced")
    else (false, none)
  | _, _, _ => (false, none)

/-- calculate_deviation from analyze_ml.py. -/
def calculate_deviation (actual_price predicted_price : ℚ) : ℚ :=
  if predicted_price = 0 then 0
  else (actual_price - predicted_price) / predicted_price * 100

/-- The is_anomaly column of the ML pipeline:
df.deviation_percentage.abs() > DEVIATION_THRESHOLD. -/
def mlIsAnomaly (dev : ℚ) : Bool :=
  decide (|dev| > DEVIATION_THRESHOLD)

/-- The anomaly_type column of the ML pipeline (lines 192-197 of
analyze_ml.py): over-priced when the deviation strictly exceeds the
threshold, under-priced when it falls strictly below its negation. -/
def mlAnomalyType (dev : ℚ) : Option String :=
  if dev > DEVIATION_THRESHOLD then some "over-priced"
  else if dev < -DEVIATION_THRESHOLD then some "under-priced"
  else none

/-! ## The statistical pipeline of analyze.py -/

/-- Mean of a column as pandas computes it over the non-missing values: NaN
(none) on an empty column, otherwise the arithmetic mean. -/
def meanOf (xs : List ℚ) : Option ℚ :=
  if xs.length = 0 then none else some (xs.sum / (xs.length : ℚ))

/-- Sample variance with the n-1 denominator, on the non-missing values of a
column (meaningful only for two or more values; stdOf guards the length). -/
def sampleVar (xs : List ℚ) : ℚ :=
  match meanOf xs with
  | none => 0
  | some m => (xs.map (fun x => (x - m) ^ 2)).sum / ((xs.length : ℚ) - 1)

/-- Sample standard deviation as pandas std computes it: NaN (none) for
fewer than two observations, otherwise the square root of the sample
variance, the square root being the oracle sqrtQ. -/
def stdOf (sqrtQ : ℚ → ℚ) (xs : List ℚ) : Option ℚ :=
  if xs.length < 2 then none else some (sqrtQ (sampleVar xs))

/-- Rows returned by SELECT * FROM listings WHERE zip_code = :zip. -/
def zipRows (zip : String) (db : List Listing) : List Listing :=
  db.filter (fun l => decide (l.zip_code = zip))

/-- The data frame of analyze.py after the structural filter
df[df.sq_ft > 0] (NaN area also fails the comparison). -/
def dfOf (zip : String) (db : List Listing) : List Listing :=
  (zipRows zip db).filter (fun l => posQ l.sq_ft)

/-- Grouping key of the groupby: (zip_code, property_type). -/
def groupKey (l : Listing) : String × String :=
  (l.zip_code, l.property_type)

/-- The ppsq values of one group that enter the aggregate; missing ppsq
values are skipped, exactly as pandas mean/std/count skip NaN. -/
def groupVals (df : List Listing) (k : String × String) : List ℚ :=
  (df.filter (fun l => decide (groupKey l = k))).filterMap ppsqOf

/-- One row of the stats frame produced by
groupby(group_cols).ppsq.agg(mean, std, count). -/
structure SegStats where
  mu : Option ℚ
  sigma : Option ℚ
  n : ℕ
deriving DecidableEq, Repr

/-- Aggregate of one group of the stats frame. -/
def statsFor (sqrtQ : ℚ → ℚ) (df : List Listing) (k : String × String) : SegStats :=
  ⟨meanOf (groupVals df k), stdOf sqrtQ (groupVals df k), (groupVals df k).length⟩

/-- The group keys present in the data frame, one occurrence each (the order
pandas emits is sorted; only the key set matters to the stored state, since
keys are pairwise distinct either way). -/
def groupKeys (df : List Listing) : List (String × String) :=
  (df.map groupKey).dedup

/-- A row of the group_stats table. -/
structure GroupStatsRow where
  zip_code : String
  property_type : String
  stat_date : ℕ
  mean_ppsq : Option ℚ
  std_ppsq : Option ℚ
  count_listings : ℕ
deriving DecidableEq, Repr

/-- Segment-key columns of a group_stats row: (zip_code, property_type,
stat_date).  The schemas of the repository declare no unique constraint on
these columns; the primary key of the table is a surrogate autoincrement
id. -/
def gsKey (r : GroupStatsRow) : String × String × ℕ :=
  (r.zip_code, r.property_type, r.stat_date)

/-- The batch gs_records built by analyze_and_store for the run date now. -/
def gsRecords (sqrtQ : ℚ → ℚ) (zip : String) (now : ℕ) (db : List Listing) :
    List GroupStatsRow :=
  (groupKeys (dfOf zip db)).map (fun k =>
    let st := statsFor sqrtQ (dfOf zip db) k
    ⟨k.1, k.2, now, st.mu, st.sigma, st.n⟩)

/-- A row of the listing_analysis table.  The statistical pipeline writes no
predicted_price, deviation_percentage or dq_status, so INSERT OR REPLACE
leaves those columns NULL; the ML pipeline fills them. -/
structure ListingAnalysisRow where
  listing_id : String
  price_per_sqft : Option ℚ
  is_anomaly : Bool
  anomaly_type : Option String
  mean_ppsq : Option ℚ
  std_ppsq : Option ℚ
  predicted_price : Option ℚ
  deviation_percentage : Option ℚ
  dq_status : Option String
  analyzed_at : ℕ
deriving DecidableEq, Repr

/-- The stats columns a listing acquires from the left join
df.merge(stats, on=group_cols): the stats frame holds exactly one row per
key occurring in df, whose content is statsFor of that key. -/
def mergedStats (sqrtQ : ℚ → ℚ) (df : List Listing) (l : Listing) : SegStats :=
  statsFor sqrtQ df (groupKey l)

/-- One record of the listing_analysis batch of analyze.py. -/
def laRecord (sqrtQ : ℚ → ℚ) (df : List Listing) (now : ℕ) (l : Listing) :
    ListingAnalysisRow :=
  let st := mergedStats sqrtQ df l
  let fl := flag_row (ppsqOf l) st.mu st.sigma
  ⟨l.listing_id, ppsqOf l, fl.1, fl.2, st.mu, st.sigma, none, none, none, now⟩

/-- The full listing_analysis batch of analyze.py. -/
def laRecords (sqrtQ : ℚ → ℚ) (zip : String) (now : ℕ) (db : List Listing) :
    List ListingAnalysisRow :=
  (dfOf zip db).map (laRecord sqrtQ (dfOf zip db) now)

/-- The two tables the engine writes. -/
structure Store where
  group_stats : List GroupStatsRow
  listing_analysis : List ListingAnalysisRow
deriving DecidableEq, Repr

/-- INSERT OR REPLACE against a declared unique key: the row holding the
conflicting key is deleted and the fresh row inserted. -/
def upsertBy {α κ : Type} [DecidableEq κ] (key : α → κ) (t : List α) (r : α) : List α :=
  (t.filter (fun x => decide (key x ≠ key r))) ++ [r]

/-- Write into group_stats.  The table is keyed only by a surrogate
autoincrement id (seed_demo.py lines 94-104 and test_e2e.py line 52 declare
no unique constraint on zip_code, property_type, stat_date, and the insert
statement omits id so a fresh one is assigned), hence the INSERT OR REPLACE
of analyze.py never meets a conflict: the row is plainly appended. -/
def insertGS (t : List GroupStatsRow) (r : GroupStatsRow) : List GroupStatsRow :=
  t ++ [r]

/-- Upsert into listing_analysis, whose declared primary key is
listing_id. -/
def upsertLA (t : List ListingAnalysisRow) (r : ListingAnalysisRow) :
    List ListingAnalysisRow :=
  upsertBy ListingAnalysisRow.listing_id t r

/-- analyze_and_store of analyze.py: an empty selection returns without
writing; otherwise the group_stats batch is appended row by row (no unique
segment key exists to conflict on) and the listing_analysis batch is
upserted row by row on listing_id.  The run date now stands for both
stat_date and the analyzed_at timestamp of the run. -/
def analyze_and_store (sqrtQ : ℚ → ℚ) (zip : String) (now : ℕ) (db : List Listing)
    (s : Store) : Store :=
  if zipRows zip db = [] then s
  else
    { group_stats := (gsRecords sqrtQ zip now db).foldl insertGS s.group_stats
      listing_analysis := (laRecords sqrtQ zip now db).foldl upsertLA s.listing_analysis }

/-! ## The ML pipeline of analyze_ml.py -/

/-- An abstract fitted predictive model: maps the four raw feature values
(sq_ft, beds, baths, year_built) to a raw predicted price.  The scaler is
part of the fitted artifact, so it is folded into this function. -/
def PriceModel : Type := ℚ × ℚ × ℚ × ℚ → ℚ

/-- load_recent_listings of analyze_ml.py: rows of the zip whose
scrape_timestamp is at least the window start and whose dq_status is PASS. -/
def load_recent_listings (zip : String) (since : ℚ) (db : List Listing) : List Listing :=
  db.filter (fun l =>
    decide (l.zip_code = zip ∧ since ≤ l.scrape_timestamp ∧ l.dq_status = "PASS"))

/-- Insertion of a value into a sorted list of rationals. -/
def insertSorted (x : ℚ) : List ℚ → List ℚ
  | [] => [x]
  | y :: ys => if x ≤ y then x :: y :: ys else y :: insertSorted x ys

/-- Insertion sort, used to model the pandas median. -/
def sortQ (xs : List ℚ) : List ℚ :=
  xs.foldr insertSorted []

/-- Pandas median of the non-missing values of a column: middle of the
sorted values, midpoint of the two middles on an even count, NaN (none) on
an empty column. -/
def medianOf (xs : List ℚ) : Option ℚ :=
  let s := sortQ xs
  if s.length = 0 then none
  else if s.length % 2 = 1 then s.get? (s.length / 2)
  else
    match s.get? (s.length / 2 - 1), s.get? (s.length / 2) with
    | some a, some b => some ((a + b) / 2)
    | _, _ => none

/-- Pandas fillna on one cell. -/
def fillna (m : Option ℚ) : Option ℚ → Option ℚ
  | some x => some x
  | none => m

/-- The structural filter of prepare_features:
(sq_ft > 0) and (price > 0) and (beds > 0). -/
def prepKept (df : List Listing) : List Listing :=
  df.filter (fun l => posQ l.sq_ft && posQ l.price && posQ l.beds)

/-- prepare_features of analyze_ml.py: numeric coercion (already in the row
model), structural filtering, then imputation of beds, baths and year_built
by the per-run column medians. -/
def prepare_features (df : List Listing) : List Listing :=
  let kept := prepKept df
  let mBeds := medianOf (kept.filterMap (fun l => l.beds))
  let mBaths := medianOf (kept.filterMap (fun l => l.baths))
  let mYear := medianOf (kept.filterMap (fun l => l.year_built))
  kept.map (fun l =>
    { l with
      beds := fillna mBeds l.beds
      baths := fillna mBaths l.baths
      year_built := fillna mYear l.year_built })

/-- train_model of analyze_ml.py.  Returns ok none on an empty selection, an
empty prepared frame, or a prepared population below MIN_TRAIN_SIZE; above
the gate it fits.  The fitting oracle is fallible and the source wraps no
try/except around it, so a fitting failure propagates. -/
def train_model (fit : List Listing → Except String PriceModel) (zip : String)
    (since : ℚ) (db : List Listing) : Except String (Option PriceModel) :=
  let df := load_recent_listings zip since db
  if df.isEmpty then Except.ok none
  else
    let p := prepare_features df
    if p.isEmpty then Except.ok none
    else if p.length < MIN_TRAIN_SIZE then Except.ok none
    else (fit p).map Option.some

/-- predict_price of analyze_ml.py: missing features default to 0 (and 2000
for year_built), and the raw prediction is clamped at 0. -/
def predict_price (m : PriceModel) (l : Listing) : ℚ :=
  max (m (l.sq_ft.getD 0, l.beds.getD 0, l.baths.getD 0, l.year_built.getD 2000)) 0

/-- Group values of the comparison statistics of the ML pipeline, grouped by
property_type only. -/
def mlGroupVals (df : List Listing) (pt : String) : List ℚ :=
  (df.filter (fun l => decide (l.property_type = pt))).filterMap ppsqOf

/-- Mean and sample std of the price_per_sqft column of one property_type
group of the ML pipeline. -/
def mlStatsFor (sqrtQ : ℚ → ℚ) (df : List Listing) (pt : String) : Option ℚ × Option ℚ :=
  (meanOf (mlGroupVals df pt), stdOf sqrtQ (mlGroupVals df pt))

/-- One record of the listing_analysis batch of the ML pipeline.  With a
model, the deviation of actual price from prediction drives the verdict;
without one, the fallback branch of analyze_ml.py stores False/None verdicts
and tags the run STAT_ONLY. -/
def mlRecord (sqrtQ : ℚ → ℚ) (m : Option PriceModel) (df : List Listing) (now : ℕ)
    (l : Listing) : ListingAnalysisRow :=
  let pred : Option ℚ := m.map (fun mdl => predict_price mdl l)
  let dev : Option ℚ := pred.map (fun p => calculate_deviation (l.price.getD 0) p)
  let st := mlStatsFor sqrtQ df l.property_type
  { listing_id := l.listing_id
    price_per_sqft := ppsqOf l
    is_anomaly := match dev with | some d => mlIsAnomaly d | none => false
    anomaly_type := match dev with | some d => mlAnomalyType d | none => none
    mean_ppsq := st.1
    std_ppsq := st.2
    predicted_price := pred
    deviation_percentage := dev
    dq_status := some (if m.isSome then "PASS" else "STAT_ONLY")
    analyzed_at := now }

/-- The full listing_analysis batch of the ML pipeline. -/
def mlRecords (sqrtQ : ℚ → ℚ) (m : Option PriceModel) (df : List Listing) (now : ℕ) :
    List ListingAnalysisRow :=
  df.map (mlRecord sqrtQ m df now)

/-- The summary dictionary returned by the ML analyze_and_store. -/
structure MLReport where
  zip_code : String
  total_new_listings : ℕ
  dq_failures : ℕ
  model_trained : Bool
  ml_anomalies : ℕ
  ml_opportunities : ℕ
  ml_risks : ℕ
deriving DecidableEq, Repr

/-- Count of listings of the zip whose dq_status differs from PASS. -/
def dqFailures (zip : String) (db : List Listing) : ℕ :=
  (db.filter (fun l => decide (l.zip_code = zip ∧ l.dq_status ≠ "PASS"))).length

/-- Anomaly counter of the report loop: rows whose is_anomaly is set. -/
def countAnomalies (rs : List ListingAnalysisRow) : ℕ :=
  (rs.filter (fun r => r.is_anomaly)).length

/-- Counter of flagged rows of one verdict category, as the report loop
counts them (only rows with is_anomaly set are inspected). -/
def countOfType (t : String) (rs : List ListingAnalysisRow) : ℕ :=
  (rs.filter (fun r => r.is_anomaly && decide (r.anomaly_type = some t))).length

/-- analyze_and_store of analyze_ml.py.  The dq failure count is computed,
the model is trained (a fitting exception propagates out of the whole run),
the PASS population of the window is loaded and prepared, records are built
and upserted, and the summary report is returned.  The ML pipeline writes no
group_stats rows. -/
def analyze_and_store_ml (sqrtQ : ℚ → ℚ) (fit : List Listing → Except String PriceModel)
    (zip : String) (since : ℚ) (now : ℕ) (db : List Listing) (s : Store) :
    Except String (MLReport × Store) :=
  (train_model fit zip since db).bind (fun m =>
    let dq := dqFailures zip db
    let df0 := load_recent_listings zip since db
    if df0.isEmpty then Except.ok (⟨zip, 0, dq, m.isSome, 0, 0, 0⟩, s)
    else
      let df := prepare_features df0
      let recs := mlRecords sqrtQ m df now
      Except.ok
        (⟨zip, df.length, dq, m.isSome, countAnomalies recs,
          countOfType "under-priced" recs, countOfType "over-priced" recs⟩,
          { s with listing_analysis := recs.foldl upsertLA s.listing_analysis }))

/-! ## Concrete populations used by witnesses and counterexamples -/

/-- A quality-passing listing with complete features, used to build concrete
populations. -/
def mkPass (i : ℕ) : Listing :=
  ⟨toString i, "z", "House", some 100000, some 1000, some 2, some 2, some 2000, 1, "PASS"⟩

/-- Stored state after one analyze.py run on a one-listing population,
starting from empty tables. -/
def storeOnce : Store :=
  analyze_and_store (fun _ => 0) "z" 7 [mkPass 0] ⟨[], []⟩

/-- Stored state after a second identical run (same listings, same zip,
same run date). -/
def storeTwice : Store :=
  analyze_and_store (fun _ => 0) "z" 7 [mkPass 0] storeOnce

/-- A population of 499 quality-passing listings. -/
def db499 : List Listing := (List.range 499).map mkPass

/-- A population of 500 quality-passing listings. -/
def db500 : List Listing := (List.range 500).map mkPass

/-- A quality-passing listing of segment (z, House) with unit area, so its
price-per-area equals its price. -/
def mkVal (id : String) (p : ℚ) : Listing :=
  ⟨id, "z", "House", some p, some 1, some 2, some 2, some 2000, 1, "PASS"⟩

/-- A PASS listing and a FAIL listing of the same segment (ppsq 1 and 5). -/
def lPass : Listing := ⟨"P1", "z", "House", some 1, some 1, some 2, some 2, some 2000, 1, "PASS"⟩

/-- The FAIL listing of the quality-exclusion population. -/
def lFail : Listing := ⟨"F1", "z", "House", some 5, some 1, some 2, some 2, some 2000, 1, "FAIL"⟩

/-- Two-listing population mixing quality statuses. -/
def dbQ : List Listing := [lPass, lFail]

/-- Nine-listing segment: eight price-per-area values of 1 and one of 19;
the sample variance is 36, so a square root oracle answering 6 is exact, the
mean is 3 and the outlier 19 strictly exceeds mean + 1.5 * std = 12. -/
def db9 : List Listing :=
  [mkVal "K1" 1, mkVal "K2" 1, mkVal "K3" 1, mkVal "K4" 1, mkVal "K5" 1,
   mkVal "K6" 1, mkVal "K7" 1, mkVal "K8" 1, mkVal "K19" 19]

/-! ## Theorems -/

/-- C2.  The spec worked example claims that with mean 100, std 10, k = 1.5 a
price-per-area of exactly 115 is classified over-priced and exactly 85
under-priced.  The code uses strict inequalities, so both boundary values
are classified normal: the claim is false at these inputs. -/
theorem flag_row_boundary_counterexample :
    flag_row (some 115) (some 100) (some 10) = (false, none) ∧
    flag_row (some 115) (some 100) (some 10) ≠ (true, some "over-priced") ∧
    flag_row (some 85) (some 100) (some 10) = (false, none) ∧
    flag_row (some 85) (some 100) (some 10) ≠ (true, some "under-priced") := by
  refine ⟨?_, ?_, ?_, ?_⟩ <;> norm_num [flag_row, THRESHOLD_MULTIPLIER]

/-- C2 (amended).  Threshold boundary under the strict rule implemented by
flag_row: for a segment with mean 100, std 10, k = 1.5, the values 115,
114.999, 85 and 85.001 are all classified normal, while values strictly
beyond the thresholds (115.001, 84.999) are flagged. -/
theorem flag_row_boundary_amended :
    flag_row (some 115) (some 100) (some 10) = (false, none) ∧
    flag_row (some 114.999) (some 100) (some 10) = (false, none) ∧
    flag_row (some 85) (some 100) (some 10) = (false, none) ∧
    flag_row (some 85.001) (some 100) (some 10) = (false, none) ∧
    flag_row (some 115.001) (some 100) (some 10) = (true, some "over-priced") ∧
    flag_row (some 84.999) (some 100) (some 10) = (true, some "under-priced") := by
  refine ⟨?_, ?_, ?_, ?_, ?_, ?_⟩ <;> norm_num [flag_row, THRESHOLD_MULTIPLIER]

/-- C3.  Both strategies use strict inequality thresholds: a price-per-area
exactly at mean + k * sigma or mean - k * sigma yields verdict normal under
the statistical strategy (for any nonnegative sigma), and a deviation
percentage exactly at +T or -T yields verdict normal under the
model-residual strategy. -/
theorem thresholds_strict (m s : ℚ) (hs : 0 ≤ s) :
    flag_row (some (m + THRESHOLD_MULTIPLIER * s)) (some m) (some s) = (false, none) ∧
    flag_row (some (m - THRESHOLD_MULTIPLIER * s)) (some m) (some s) = (false, none) ∧
    mlIsAnomaly DEVIATION_THRESHOLD = false ∧
    mlAnomalyType DEVIATION_THRESHOLD = none ∧
    mlIsAnomaly (-DEVIATION_THRESHOLD) = false ∧
    mlAnomalyType (-DEVIATION_THRESHOLD) = none := by
  have hk : (0 : ℚ) ≤ THRESHOLD_MULTIPLIER * s := by
    have : (0 : ℚ) ≤ THRESHOLD_MULTIPLIER := by norm_num [THRESHOLD_MULTIPLIER]
    exact mul_nonneg this hs
  refine ⟨?_, ?_, ?_, ?_, ?_, ?_⟩
  · simp only [flag_row]
    rw [if_neg (by linarith), if_neg (by linarith)]
  · simp only [flag_row]
    rw [if_neg (by linarith), if_neg (by linarith)]
  · norm_num [mlIsAnomaly, DEVIATION_THRESHOLD]
  · norm_num [mlAnomalyType, DEVIATION_THRESHOLD]
  · norm_num [mlIsAnomaly, DEVIATION_THRESHOLD]
  · norm_num [mlAnomalyType, DEVIATION_THRESHOLD]

/-- Witness for C3 at the concrete segment mean 100, std 10. -/
theorem thresholds_strict_witness :
    flag_row (some (100 + THRESHOLD_MULTIPLIER * 10)) (some 100) (some 10) = (false, none) ∧
    flag_row (some (100 - THRESHOLD_MULTIPLIER * 10)) (some 100) (some 10) = (false, none) ∧
    mlIsAnomaly DEVIATION_THRESHOLD = false ∧
    mlAnomalyType DEVIATION_THRESHOLD = none ∧
    mlIsAnomaly (-DEVIATION_THRESHOLD) = false ∧
    mlAnomalyType (-DEVIATION_THRESHOLD) = none :=
  thresholds_strict 100 10 (by norm_num)

/-- C9.  calculate_deviation matches the documented formula for nonzero
predicted price, returns 0 when the predicted price is exactly zero, and the
worked example (actual 250000, predicted 200000) yields +25, which the
model-residual strategy flags over-priced at the default threshold 15. -/
theorem calculate_deviation_spec (a p : ℚ) :
    (p ≠ 0 → calculate_deviation a p = (a - p) / p * 100) ∧
    calculate_deviation a 0 = 0 ∧
    calculate_deviation 250000 200000 = 25 ∧
    mlIsAnomaly (calculate_deviation 250000 200000) = true ∧
    mlAnomalyType (calculate_deviation 250000 200000) = some "over-priced" := by
  refine ⟨fun hp => by rw [calculate_deviation, if_neg hp],
    by simp [calculate_deviation], ?_, ?_, ?_⟩
  · norm_num [calculate_deviation]
  · norm_num [calculate_deviation, mlIsAnomaly, DEVIATION_THRESHOLD]
  · norm_num [calculate_deviation, mlAnomalyType, DEVIATION_THRESHOLD]

/-- Witness for C9 at actual 250000, predicted 200000. -/
theorem calculate_deviation_spec_witness :
    calculate_deviation 250000 200000 = (250000 - 200000) / 200000 * 100 :=
  (calculate_deviation_spec 250000 200000).1 (by norm_num)

/-- C1.  The group_stats table carries no unique key on (zip_code,
property_type, stat_date) - its primary key is a surrogate id - so the
INSERT OR REPLACE of analyze.py never conflicts there: a second run on the
unchanged one-listing population with the same run date appends a second
baseline row for the segment (z, House, 7) with the same key, leaving the
stored state different from the state after the first run and holding
duplicate segment keys.  Only the listing_analysis half of the claim holds:
that table is keyed by listing_id and is overwritten idempotently. -/
theorem analyze_and_store_duplicates_baselines :
    storeOnce.group_stats.map gsKey = [("z", "House", 7)] ∧
    storeTwice.group_stats.map gsKey = [("z", "House", 7), ("z", "House", 7)] ∧
    ¬ (storeTwice.group_stats.map gsKey).Nodup ∧
    storeTwice ≠ storeOnce ∧
    storeTwice.listing_analysis = storeOnce.listing_analysis := by
  have h1 : storeOnce.group_stats.map gsKey = [("z", "House", 7)] := by rfl
  have h2 : storeTwice.group_stats.map gsKey =
      [("z", "House", 7), ("z", "House", 7)] := by rfl
  refine ⟨h1, h2, ?_, ?_, ?_⟩
  · rw [h2]
    decide
  · intro h
    rw [h, h1] at h2
    exact absurd h2 (by decide)
  · rfl

/-- Missing standard deviation short-circuits the classifier to
(False, None), whatever the other two inputs hold. -/
theorem flag_row_sigma_none (p m : Option ℚ) : flag_row p m none = (false, none) := by
  cases p <;> cases m <;> rfl

/-- C5.  A listing whose segment contributes fewer than two price-per-area
values gets an undefined (null) standard deviation: the stored group_stats
row of its segment carries std_ppsq = none, and the verdict record built for
the listing is a member of the stored batch with a null std, is_anomaly
false and a null anomaly category; the classifier total-functionally returns
the non-anomaly verdict instead of erroring. -/
theorem small_group_never_flagged (sqrtQ : ℚ → ℚ) (zip : String) (now : ℕ)
    (db : List Listing) (l : Listing)
    (hl : l ∈ dfOf zip db)
    (hn : (groupVals (dfOf zip db) (groupKey l)).length < 2) :
    (statsFor sqrtQ (dfOf zip db) (groupKey l)).sigma = none ∧
    (⟨(groupKey l).1, (groupKey l).2, now,
        (statsFor sqrtQ (dfOf zip db) (groupKey l)).mu,
        (statsFor sqrtQ (dfOf zip db) (groupKey l)).sigma,
        (statsFor sqrtQ (dfOf zip db) (groupKey l)).n⟩ : GroupStatsRow) ∈
      gsRecords sqrtQ zip now db ∧
    laRecord sqrtQ (dfOf zip db) now l ∈ laRecords sqrtQ zip now db ∧
    (laRecord sqrtQ (dfOf zip db) now l).std_ppsq = none ∧
    (laRecord sqrtQ (dfOf zip db) now l).is_anomaly = false ∧
    (laRecord sqrtQ (dfOf zip db) now l).anomaly_type = none := by
  have hsig : (statsFor sqrtQ (dfOf zip db) (groupKey l)).sigma = none := by
    simp [statsFor, stdOf, hn]
  refine ⟨hsig, ?_, ?_, ?_, ?_, ?_⟩
  · have hk : groupKey l ∈ groupKeys (dfOf zip db) :=
      List.mem_dedup.mpr (List.mem_map_of_mem groupKey hl)
    exact List.mem_map.mpr ⟨groupKey l, hk, rfl⟩
  · exact List.mem_map.mpr ⟨l, hl, rfl⟩
  · simp [laRecord, mergedStats, hsig]
  · simp [laRecord, mergedStats, hsig, flag_row_sigma_none]
  · simp [laRecord, mergedStats, hsig, flag_row_sigma_none]

/-- Witness for C5 on a one-listing population. -/
theorem small_group_never_flagged_witness :
    (laRecord (fun _ => 0) (dfOf "z" [mkVal "S1" 5]) 7 (mkVal "S1" 5)).is_anomaly = false :=
  (small_group_never_flagged (fun _ => 0) "z" 7 [mkVal "S1" 5] (mkVal "S1" 5)
    (by decide) (by decide)).2.2.2.2.1

/-- Bind on a successful Except value. -/
theorem except_bind_ok {ε α β : Type} (a : α) (f : α → Except ε β) :
    (Except.ok a : Except ε α).bind f = f a := rfl

/-- On a nonempty prepared population, train_model reduces to the
minimum-size gate followed by the fitting call. -/
theorem train_model_run (fit : List Listing → Except String PriceModel)
    (zip : String) (since : ℚ) (db : List Listing)
    (hp : prepare_features (load_recent_listings zip since db) ≠ []) :
    train_model fit zip since db =
      if (prepare_features (load_recent_listings zip since db)).length < MIN_TRAIN_SIZE
        then Except.ok none
        else (fit (prepare_features (load_recent_listings zip since db))).map Option.some := by
  have hdf : load_recent_listings zip since db ≠ [] := by
    intro hd
    exact hp (by rw [hd]; rfl)
  have h1 : (load_recent_listings zip since db).isEmpty = false := by
    cases hl : load_recent_listings zip since db
    · exact absurd hl hdf
    · rfl
  have h2 : (prepare_features (load_recent_listings zip since db)).isEmpty = false := by
    cases hl : prepare_features (load_recent_listings zip since db)
    · exact absurd hl hp
    · rfl
  simp only [train_model, h1, h2]
  simp

/-- C4 (amended).  train_model declines with a population of 499 prepared
quality-passing listings (the summary then shows model_trained = false), and
attempts fitting once the population reaches the minimum MIN_TRAIN_SIZE. -/
theorem train_model_gate (fit : List Listing → Except String PriceModel)
    (zip : String) (since : ℚ) (db : List Listing) :
    ((prepare_features (load_recent_listings zip since db)).length = 499 →
      train_model fit zip since db = Except.ok none) ∧
    (MIN_TRAIN_SIZE ≤ (prepare_features (load_recent_listings zip since db)).length →
      train_model fit zip since db =
        (fit (prepare_features (load_recent_listings zip since db))).map Option.some) ∧
    ((prepare_features (load_recent_listings zip since db)).length = 499 →
      ∀ (sqrtQ : ℚ → ℚ) (now : ℕ) (s : Store), ∃ rep s2,
        analyze_and_store_ml sqrtQ fit zip since now db s = Except.ok (rep, s2) ∧
        rep.model_trained = false) := by
  refine ⟨?_, ?_, ?_⟩
  · intro h
    have hp : prepare_features (load_recent_listings zip since db) ≠ [] := by
      intro hd
      rw [hd] at h
      exact absurd h (by decide)
    rw [train_model_run fit zip since db hp, if_pos (by rw [h]; decide)]
  · intro h
    have hp : prepare_features (load_recent_listings zip since db) ≠ [] := by
      intro hd
      rw [hd] at h
      exact absurd h (by decide)
    rw [train_model_run fit zip since db hp, if_neg (by omega)]
  · intro h sqrtQ now s
    have hp : prepare_features (load_recent_listings zip since db) ≠ [] := by
      intro hd
      rw [hd] at h
      exact absurd h (by decide)
    have htr : train_model fit zip since db = Except.ok none := by
      rw [train_model_run fit zip since db hp, if_pos (by rw [h]; decide)]
    rw [analyze_and_store_ml, htr, except_bind_ok]
    by_cases hdf0 : (load_recent_listings zip since db).isEmpty = true
    · refine ⟨⟨zip, 0, dqFailures zip db, false, 0, 0, 0⟩, s, ?_, rfl⟩
      rw [if_pos hdf0]
      rfl
    · refine ⟨⟨zip, (prepare_features (load_recent_listings zip since db)).length,
          dqFailures zip db, false,
          countAnomalies (mlRecords sqrtQ none
            (prepare_features (load_recent_listings zip since db)) now),
          countOfType "under-priced" (mlRecords sqrtQ none
            (prepare_features (load_recent_listings zip since db)) now),
          countOfType "over-priced" (mlRecords sqrtQ none
            (prepare_features (load_recent_listings zip since db)) now)⟩,
        { s with listing_analysis :=
            (mlRecords sqrtQ none (prepare_features (load_recent_listings zip since db))
              now).foldl upsertLA s.listing_analysis }, ?_, rfl⟩
      rw [if_neg hdf0]
      rfl

/-- C4 counterexample.  The claim describes the default minimum training
threshold as a four-figure count; the constant in the source is 500, a
three-figure count. -/
theorem min_train_size_counterexample :
    MIN_TRAIN_SIZE = 500 ∧ MIN_TRAIN_SIZE < 1000 := by
  constructor <;> decide

set_option maxRecDepth 40000 in
/-- Witness for C4 on concrete populations of 499 and 500 listings. -/
theorem train_model_gate_witness :
    train_model (fun _ => Except.error "unused") "z" 0 db499 = Except.ok none ∧
    train_model (fun _ => Except.ok (fun _ => 0)) "z" 0 db500 =
      ((fun _ => (Except.ok (fun _ => (0 : ℚ)) : Except String PriceModel))
        (prepare_features (load_recent_listings "z" 0 db500))).map Option.some ∧
    (∃ rep s2,
      analyze_and_store_ml (fun _ => 0) (fun _ => Except.error "unused") "z" 0 7 db499
          ⟨[], []⟩ = Except.ok (rep, s2) ∧
      rep.model_trained = false) := by
  refine ⟨?_, ?_, ?_⟩
  · exact (train_model_gate (fun _ => Except.error "unused") "z" 0 db499).1 (by rfl)
  · exact (train_model_gate (fun _ => Except.ok (fun _ => 0)) "z" 0 db500).2.1 (by decide)
  · exact (train_model_gate (fun _ => Except.error "unused") "z" 0 db499).2.2 (by rfl)
      (fun _ => 0) 7 ⟨[], []⟩

set_option maxRecDepth 40000 in
/-- C6.  The source wraps no exception handler around model fitting: a
fitting failure on a population that passes the minimum-size gate propagates
out of train_model and out of the whole ML analyze_and_store run, which
therefore returns no summary report, instead of being downgraded to a
model-unavailable statistics-only run. -/
theorem ml_training_failure_propagates (sqrtQ : ℚ → ℚ) :
    train_model (fun _ => Except.error "degenerate matrix") "z" 0 db500 =
      Except.error "degenerate matrix" ∧
    analyze_and_store_ml sqrtQ (fun _ => Except.error "degenerate matrix") "z" 0 7 db500
        ⟨[], []⟩ = Except.error "degenerate matrix" ∧
    ∀ rep s2,
      analyze_and_store_ml sqrtQ (fun _ => Except.error "degenerate matrix") "z" 0 7 db500
        ⟨[], []⟩ ≠ Except.ok (rep, s2) := by
  have h1 : train_model (fun _ => Except.error "degenerate matrix") "z" 0 db500 =
      Except.error "degenerate matrix" := by
    rw [train_model_run _ "z" 0 db500 (by decide), if_neg (by decide)]
    rfl
  refine ⟨h1, ?_, ?_⟩
  · rw [analyze_and_store_ml, h1]
    rfl
  · intro rep s2 hc
    rw [analyze_and_store_ml, h1] at hc
    exact Except.noConfusion hc

/-- C7.  When no model is available for a run, the fallback branch of the ML
pipeline stores is_anomaly = False and a null category for every listing and
marks the run STAT_ONLY; no listing is classified against its segment
baseline, even one whose price-per-area strictly exceeds mean + k * sigma
(which the statistical rule flag_row would flag over-priced). -/
theorem ml_fallback_never_classifies (sqrtQ : ℚ → ℚ)
    (fit : List Listing → Except String PriceModel) (zip : String) (since : ℚ)
    (now : ℕ) (db : List Listing) (s : Store) (l : Listing) (x mu sg : ℚ)
    (hm : train_model fit zip since db = Except.ok none)
    (hl : l ∈ prepare_features (load_recent_listings zip since db))
    (hx : ppsqOf l = some x)
    (hmu : (mlStatsFor sqrtQ (prepare_features (load_recent_listings zip since db))
      l.property_type).1 = some mu)
    (hsg : (mlStatsFor sqrtQ (prepare_features (load_recent_listings zip since db))
      l.property_type).2 = some sg)
    (hgt : mu + THRESHOLD_MULTIPLIER * sg < x) :
    (mlRecord sqrtQ none (prepare_features (load_recent_listings zip since db)) now
      l).is_anomaly = false ∧
    (mlRecord sqrtQ none (prepare_features (load_recent_listings zip since db)) now
      l).anomaly_type = none ∧
    (mlRecord sqrtQ none (prepare_features (load_recent_listings zip since db)) now
      l).dq_status = some "STAT_ONLY" ∧
    mlRecord sqrtQ none (prepare_features (load_recent_listings zip since db)) now l ∈
      mlRecords sqrtQ none (prepare_features (load_recent_listings zip since db)) now ∧
    flag_row (some x) (some mu) (some sg) = (true, some "over-priced") ∧
    (∃ rep s2, analyze_and_store_ml sqrtQ fit zip since now db s = Except.ok (rep, s2) ∧
      rep.model_trained = false) := by
  refine ⟨rfl, rfl, rfl, List.mem_map.mpr ⟨l, hl, rfl⟩, ?_, ?_⟩
  · simp only [flag_row]
    rw [if_pos hgt]
  · have hdf0 : ¬(load_recent_listings zip since db).isEmpty = true := by
      intro he
      have hnil : load_recent_listings zip since db = [] := by
        cases hc : load_recent_listings zip since db
        · rfl
        · rw [hc] at he; exact Bool.noConfusion he
      rw [hnil] at hl
      have hpn : prepare_features ([] : List Listing) = [] := rfl
      rw [hpn] at hl
      exact List.not_mem_nil l hl
    rw [analyze_and_store_ml, hm, except_bind_ok]
    refine ⟨⟨zip, (prepare_features (load_recent_listings zip since db)).length,
        dqFailures zip db, false,
        countAnomalies (mlRecords sqrtQ none
          (prepare_features (load_recent_listings zip since db)) now),
        countOfType "under-priced" (mlRecords sqrtQ none
          (prepare_features (load_recent_listings zip since db)) now),
        countOfType "over-priced" (mlRecords sqrtQ none
          (prepare_features (load_recent_listings zip since db)) now)⟩,
      { s with listing_analysis :=
          (mlRecords sqrtQ none (prepare_features (load_recent_listings zip since db))
            now).foldl upsertLA s.listing_analysis }, ?_, rfl⟩
    rw [if_neg hdf0]
    rfl

/-- Witness for C7: the outlier of db9 in a statistics-only run. -/
theorem ml_fallback_never_classifies_witness :
    (mlRecord (fun _ => 6) none (prepare_features (load_recent_listings "z" 0 db9)) 7
      (mkVal "K19" 19)).is_anomaly = false := by
  have e1 : prepare_features (load_recent_listings "z" 0 db9) = db9 := by
    norm_num [prepare_features, prepKept, load_recent_listings, db9, mkVal, posQ, fillna]
  have hvals : mlGroupVals db9 "House" = [1, 1, 1, 1, 1, 1, 1, 1, 19] := by
    norm_num [mlGroupVals, db9, mkVal, ppsqOf, List.filterMap_cons]
  refine (ml_fallback_never_classifies (fun _ => 6) (fun _ => Except.error "unused")
    "z" 0 7 db9 ⟨[], []⟩ (mkVal "K19" 19) 19 3 6 ?_ ?_ ?_ ?_ ?_ ?_).1
  · rfl
  · rw [e1]; decide
  · norm_num [ppsqOf, mkVal]
  · rw [e1]
    show (mlStatsFor (fun _ => 6) db9 "House").1 = some 3
    norm_num [mlStatsFor, hvals, meanOf]
  · rw [e1]
    show (mlStatsFor (fun _ => 6) db9 "House").2 = some 6
    norm_num [mlStatsFor, hvals, stdOf]
  · norm_num [THRESHOLD_MULTIPLIER]

/-- C8 counterexample.  In the statistical pipeline the FAIL listing of dbQ
is part of the population the Baseline Estimator aggregates: it survives the
selection, its price-per-area (5) enters the group values, and the segment
aggregate counts both listings with mean 3, not the PASS-only count 1 with
mean 1. -/
theorem quality_exclusion_counterexample :
    lFail.dq_status = "FAIL" ∧
    lFail ∈ dfOf "z" dbQ ∧
    groupVals (dfOf "z" dbQ) ("z", "House") = [1, 5] ∧
    (statsFor (fun _ => 0) (dfOf "z" dbQ) ("z", "House")).n = 2 ∧
    (statsFor (fun _ => 0) (dfOf "z" dbQ) ("z", "House")).mu = some 3 := by
  have hgv : groupVals (dfOf "z" dbQ) ("z", "House") = [1, 5] := by
    norm_num [groupVals, dfOf, zipRows, dbQ, lPass, lFail, posQ, groupKey, ppsqOf,
      List.filterMap_cons]
  refine ⟨rfl, by decide, hgv, ?_, ?_⟩
  · rw [statsFor, hgv]
    rfl
  · rw [statsFor, hgv]
    norm_num [meanOf]

/-- C8 (amended).  Quality exclusion holds on the ML side only: every
listing the ML pipeline loads (and hence its whole training population after
feature preparation) has quality status PASS, while the statistical
pipeline of analyze.py selects its baseline population by zip and positive
area alone, taking no notice of dq_status. -/
theorem quality_exclusion_amended (zip : String) (since : ℚ) (db : List Listing) :
    (∀ l ∈ load_recent_listings zip since db, l.dq_status = "PASS") ∧
    (∀ l ∈ prepare_features (load_recent_listings zip since db), l.dq_status = "PASS") ∧
    (∀ l, l ∈ dfOf zip db ↔ (l ∈ db ∧ l.zip_code = zip ∧ posQ l.sq_ft = true)) := by
  have h1 : ∀ l ∈ load_recent_listings zip since db, l.dq_status = "PASS" := by
    intro l hl
    have hp := (List.mem_filter.mp hl).2
    rw [decide_eq_true_eq] at hp
    exact hp.2.2
  refine ⟨h1, ?_, ?_⟩
  · intro l hl
    obtain ⟨l0, hl0, rfl⟩ := List.mem_map.mp hl
    have hl1 : l0 ∈ load_recent_listings zip since db :=
      (List.mem_filter.mp hl0).1
    exact h1 l0 hl1
  · intro l
    constructor
    · intro hl
      have hz := List.mem_filter.mp hl
      have hzz := List.mem_filter.mp hz.1
      refine ⟨hzz.1, ?_, hz.2⟩
      have := hzz.2
      rw [decide_eq_true_eq] at this
      exact this
    · intro ⟨hmem, hzip, hpos⟩
      exact List.mem_filter.mpr
        ⟨List.mem_filter.mpr ⟨hmem, decide_eq_true hzip⟩, hpos⟩

/-- Witness for C8 on the mixed-quality population dbQ. -/
theorem quality_exclusion_amended_witness :
    lPass.dq_status = "PASS" ∧ (lFail ∈ dfOf "z" dbQ ↔
      (lFail ∈ dbQ ∧ lFail.zip_code = "z" ∧ posQ lFail.sq_ft = true)) :=
  ⟨(quality_exclusion_amended "z" 0 dbQ).1 lPass (by decide),
    (quality_exclusion_amended "z" 0 dbQ).2.2 lFail⟩

/-- The verdict flag of the statistical classifier is set exactly when the
verdict category is present. -/
theorem flag_row_consistent (p mu s : Option ℚ) :
    ((flag_row p mu s).1 = true ↔ (flag_row p mu s).2 ≠ none) := by
  rcases p with _ | x
  · simp [flag_row]
  rcases mu with _ | m
  · simp [flag_row]
  rcases s with _ | sg
  · simp [flag_row]
  · simp only [flag_row]
    by_cases h1 : x > m + THRESHOLD_MULTIPLIER * sg
    · simp [h1]
    · by_cases h2 : x < m - THRESHOLD_MULTIPLIER * sg
      · simp [h1, h2]
      · simp [h1, h2]

/-- The verdict flag of the model-residual classifier is set exactly when
the verdict category is present. -/
theorem ml_flag_consistent (d : ℚ) :
    (mlIsAnomaly d = true ↔ mlAnomalyType d ≠ none) := by
  by_cases h1 : d > DEVIATION_THRESHOLD
  · have ha : |d| > DEVIATION_THRESHOLD := lt_of_lt_of_le h1 (le_abs_self d)
    simp [mlIsAnomaly, mlAnomalyType, h1, ha]
  · by_cases h2 : d < -DEVIATION_THRESHOLD
    · have ha : |d| > DEVIATION_THRESHOLD := by
        have : -d > DEVIATION_THRESHOLD := by linarith
        exact lt_of_lt_of_le this (neg_le_abs d)
      simp [mlIsAnomaly, mlAnomalyType, h1, h2, ha]
    · have ha : ¬(|d| > DEVIATION_THRESHOLD) := by
        rw [not_lt, abs_le]
        constructor <;> linarith
      simp [mlIsAnomaly, mlAnomalyType, h1, h2, ha]

/-- C10.  In every verdict record of either pipeline the boolean anomaly
flag agrees with the verdict category: is_anomaly is set exactly when
anomaly_type is non-null, and a non-anomalous verdict carries a null
category. -/
theorem verdict_flag_category_consistent (sqrtQ : ℚ → ℚ) (zip : String) (now : ℕ)
    (db : List Listing) (m : Option PriceModel) (df : List Listing) :
    (∀ r ∈ laRecords sqrtQ zip now db, (r.is_anomaly = true ↔ r.anomaly_type ≠ none)) ∧
    (∀ r ∈ mlRecords sqrtQ m df now, (r.is_anomaly = true ↔ r.anomaly_type ≠ none)) := by
  constructor
  · intro r hr
    obtain ⟨l, hl, rfl⟩ := List.mem_map.mp hr
    exact flag_row_consistent (ppsqOf l) (mergedStats sqrtQ (dfOf zip db) l).mu
      (mergedStats sqrtQ (dfOf zip db) l).sigma
  · intro r hr
    obtain ⟨l, hl, rfl⟩ := List.mem_map.mp hr
    cases m with
    | none => simp [mlRecord]
    | some mdl =>
      simpa [mlRecord] using
        ml_flag_consistent (calculate_deviation (l.price.getD 0) (predict_price mdl l))

/-- Witness for C10 on a concrete record of each pipeline. -/
theorem verdict_flag_category_consistent_witness :
    ((laRecord (fun _ => 0) (dfOf "z" [mkPass 0]) 7 (mkPass 0)).is_anomaly = true ↔
      (laRecord (fun _ => 0) (dfOf "z" [mkPass 0]) 7 (mkPass 0)).anomaly_type ≠ none) ∧
    ((mlRecord (fun _ => 0) none [mkPass 0] 7 (mkPass 0)).is_anomaly = true ↔
      (mlRecord (fun _ => 0) none [mkPass 0] 7 (mkPass 0)).anomaly_type ≠ none) :=
  ⟨(verdict_flag_category_consistent (fun _ => 0) "z" 7 [mkPass 0] none [mkPass 0]).1
      (laRecord (fun _ => 0) (dfOf "z" [mkPass 0]) 7 (mkPass 0))
      (List.mem_map.mpr ⟨mkPass 0, by decide, rfl⟩),
    (verdict_flag_category_consistent (fun _ => 0) "z" 7 [mkPass 0] none [mkPass 0]).2
      (mlRecord (fun _ => 0) none [mkPass 0] 7 (mkPass 0))
      (List.mem_map.mpr ⟨mkPass 0, by decide, rfl⟩)⟩

end RealEstate
